import Mathlib

/-!
Shallow embedding of the Shelly Pro4PM load-shedding script
(`underpower-off` variant, main source file).

The script is single-threaded ES5; every handler runs to completion, so the
whole program state is modelled as one `World` record threaded through pure
functions.  JavaScript sparse arrays are `List (Option α)` (a hole is `none`);
JS `undefined`/`NaN` propagation through arithmetic and comparisons is
modelled by `Option ℚ` with `none` absorbing in `jsAdd`/`jsSub` and falsy in
`jsLT`/`jsGT`.  External effects (console output, `Switch.Set` RPC calls,
HTTP posts) are recorded in append-only trace fields of `World`.
-/

/-- JS sparse-array read `l[i]`: `undefined` (`none`) when out of range or a
hole. -/
def getIdx {α : Type} (l : List (Option α)) (i : Nat) : Option α :=
  l.getD i none

/-- JS sparse-array write `l[i] = v`: in-range writes set the slot, writes past
the end extend the array with holes (`none`) up to index `i`. -/
def setIdx {α : Type} (l : List (Option α)) (i : Nat) (v : α) : List (Option α) :=
  if i < l.length then l.set i (some v)
  else l ++ List.replicate (i - l.length) none ++ [some v]

/-- JS truthiness of a possibly-undefined boolean (`undefined` is falsy). -/
def jsTruthy (o : Option Bool) : Bool :=
  match o with
  | some b => b
  | none => false

/-- JS `+` on numbers where `none` stands for `undefined`/`NaN`
(`x + undefined` is `NaN`, and `NaN` is absorbing). -/
def jsAdd (a b : Option ℚ) : Option ℚ :=
  match a, b with
  | some x, some y => some (x + y)
  | _, _ => none

/-- JS `-` with the same `NaN` propagation as `jsAdd`. -/
def jsSub (a b : Option ℚ) : Option ℚ :=
  match a, b with
  | some x, some y => some (x - y)
  | _, _ => none

/-- JS `a < b` for a possibly-`NaN` left operand: any comparison with `NaN`
is false. -/
def jsLT (a : Option ℚ) (b : ℚ) : Bool :=
  match a with
  | some x => decide (x < b)
  | none => false

/-- JS `a > b` for a possibly-`NaN` left operand: any comparison with `NaN`
is false. -/
def jsGT (a : Option ℚ) (b : ℚ) : Bool :=
  match a with
  | some x => decide (b < x)
  | none => false

/-- JS string conversion of a boolean. -/
def boolStr (b : Bool) : String :=
  if b then "true" else "false"

/-- JS string conversion of a possibly-`undefined` current value read straight
from the array (`'' + undefined` is `"undefined"`). -/
def optCurStr (o : Option ℚ) : String :=
  match o with
  | some q => toString q
  | none => "undefined"

/-- JS string conversion of a running total that may have become `NaN`. -/
def totStr (o : Option ℚ) : String :=
  match o with
  | some q => toString q
  | none => "NaN"

/-- JS string conversion of a possibly-`undefined` switch id. -/
def optIdStr (o : Option Nat) : String :=
  match o with
  | some n => toString n
  | none => "undefined"

/-- `JSON.stringify` of a queue entry that is a string (or `undefined`). -/
def jsonStr (o : Option String) : String :=
  match o with
  | some s => "\"" ++ s ++ "\""
  | none => "undefined"

/-- The `CONFIG` object plus the static fields of the `_logQueue` and
`_notifyQueue` literals (their mutable `queue` arrays live in `World`). -/
structure Config where
  switchPriority : List Nat
  currentMax : ℚ
  httpNtfyURL : String
  log : Bool
  logMaxSize : Nat
  logInterval : ℚ
  notifyMaxSize : Nat
  notifyInterval : ℚ
deriving Repr, DecidableEq

/-- The literal `CONFIG` / `_logQueue` / `_notifyQueue` values of the source. -/
def CONFIG : Config :=
  { switchPriority := [3, 0, 1, 2]
    currentMax := 15
    httpNtfyURL := "https://ntfy.sh/shelly-loadshed"
    log := true
    logMaxSize := 10
    logInterval := 100
    notifyMaxSize := 5
    notifyInterval := 20 }

/-- The `deviceConfig` object (names used when rendering notifications). -/
structure DeviceConfig where
  deviceName : String
  scriptName : String
  switchNames : List String
deriving Repr, DecidableEq

/-- The literal `deviceConfig` default value of the source. -/
def deviceConfig : DeviceConfig :=
  { deviceName := "Shelly Pro4PM"
    scriptName := "Load Shed"
    switchNames := ["S1", "S2", "S3", "S4"] }

/-- `deviceConfig.switchNames[switchId]` with JS out-of-range semantics. -/
def switchName (dc : DeviceConfig) (i : Nat) : String :=
  dc.switchNames.getD i "undefined"

/-- The global `loadState` object: per-switch last-known `current` and
`output`, indexed by switch id (sparse). -/
structure LoadState where
  current : List (Option ℚ)
  output : List (Option Bool)
deriving Repr, DecidableEq

/-- A `NotifyStatus` event as consumed by `updateStatus`: component name,
switch id, and the optional `delta.output` / `delta.current` /
`delta.aenergy` fields (absent field = `none`). -/
structure NotifyStatus where
  id : Nat
  name : String
  deltaOutput : Option Bool
  deltaCurrent : Option ℚ
  deltaAenergy : Option ℚ
deriving Repr, DecidableEq

/-- The whole mutable program state, plus append-only observation traces:
`sent` records `postNotification` deliveries, `commands` records
`Switch.Set` RPC calls, `enqueuedTrace` records every message ever pushed
onto the notify queue, `consoleLog` records direct `console.log` output. -/
structure World where
  loadState : LoadState
  interlockPosted : Bool
  logQueue : List String
  notifyQueue : List String
  lastNotificationMessage : Option String
  lastNotificationTime : ℚ
  currentTime : ℚ
  notificationIntervalCount : ℚ
  lastRemainingWait : ℚ
  consoleLog : List String
  sent : List String
  commands : List (Nat × Bool)
  enqueuedTrace : List String
deriving Repr, DecidableEq

/-- `_log(...)`: enqueue a console message if logging is enabled and the log
queue is below capacity; at capacity the NEW message is discarded (only a
direct `console.log('_log: overflow!!')` is attempted). -/
def _log (cfg : Config) (msg : String) (w : World) : World :=
  if !cfg.log then w
  else if w.logQueue.length < cfg.logMaxSize then
    { w with logQueue := w.logQueue ++ [msg] }
  else
    { w with consoleLog := w.consoleLog ++ ["_log: overflow!!"] }

/-- `postNotification(message)`: log the attempt and deliver the message to
the HTTP sink (recorded in the `sent` trace). -/
def postNotification (cfg : Config) (msg : String) (w : World) : World :=
  let w := _log cfg ("postNotification [" ++ jsonStr (some msg) ++ "]") w
  { w with sent := w.sent ++ [msg] }

/-- `_notifyWrite(byTimer)`: refresh `currentTime` from uptime (`now`), and if
forced by the timer or the minimum interval has elapsed, post the head of the
notify queue; finally clamp the remaining wait to `[0, interval]` (kept in the
ghost field `lastRemainingWait`) and convert it to log-timer ticks in
`notificationIntervalCount`. -/
def _notifyWrite (cfg : Config) (now : ℚ) (byTimer : Bool) (w : World) : World :=
  let w := { w with currentTime := now }
  let remaining := cfg.notifyInterval - (now - w.lastNotificationTime)
  let step : World × ℚ :=
    if byTimer || decide (remaining < 0) then
      match w.notifyQueue with
      | [] => (w, remaining)
      | m :: rest =>
        let w := postNotification cfg m { w with notifyQueue := rest }
        ({ w with lastNotificationTime := now }, cfg.notifyInterval)
    else (w, remaining)
  let w := step.1
  let intv := max 0 (min step.2 cfg.notifyInterval)
  { w with lastRemainingWait := intv
           notificationIntervalCount := intv * 1000 / cfg.logInterval }

/-- `_notify(...)`: no-op without a notification URL; suppress a message
textually identical to the previously enqueued one; at capacity drop the
oldest queue entry (logging the loss); append the new message and service the
queue immediately (not timer-forced). -/
def _notify (cfg : Config) (now : ℚ) (message : String) (w : World) : World :=
  if cfg.httpNtfyURL = "" then w
  else if some message = w.lastNotificationMessage then w
  else
    let w := { w with lastNotificationMessage := some message }
    let w :=
      if cfg.notifyMaxSize ≤ w.notifyQueue.length then
        let m := w.notifyQueue.head?
        let w := { w with notifyQueue := w.notifyQueue.tail }
        _log cfg ("_notify overflow: " ++ jsonStr m) w
      else w
    let w := { w with notifyQueue := w.notifyQueue ++ [message]
                      enqueuedTrace := w.enqueuedTrace ++ [message] }
    _notifyWrite cfg now false w

/-- `_updateLoadStateOutput(notifyStatus)`: merge a `delta.output` field (if
present) into the store, last-write-wins. -/
def _updateLoadStateOutput (ev : NotifyStatus) (w : World) : World :=
  match ev.deltaOutput with
  | none => w
  | some b =>
    { w with loadState := { w.loadState with output := setIdx w.loadState.output ev.id b } }

/-- `_updateLoadStatePower(notifyStatus)`: merge a `delta.current` field (if
present) into the store, then warn when a non-negligible current (> 0.1) is
reported while the stored output is off/unknown. -/
def _updateLoadStatePower (cfg : Config) (ev : NotifyStatus) (w : World) : World :=
  match ev.deltaCurrent with
  | none => w
  | some c =>
    let w := { w with loadState := { w.loadState with current := setIdx w.loadState.current ev.id c } }
    if decide ((1 : ℚ)/10 < c) && !jsTruthy (getIdx w.loadState.output ev.id) then
      _log cfg ("WARN output " ++ toString ev.id ++ " is off yet current=" ++ toString c) w
    else w

/-- The `switchesOn` list computed by `_checkInterlock`: indices below the
output array's length whose output is truthy, skipping the id that equals
`switchPriority[0]` (the primary). -/
def switchesOn (cfg : Config) (ls : LoadState) : List Nat :=
  (List.range ls.output.length).filter
    (fun i => !(decide (cfg.switchPriority.head? = some i)) && jsTruthy (getIdx ls.output i))

/-- The rendered name+current tag for one switch in a notification. -/
def switchTag (dc : DeviceConfig) (ls : LoadState) (i : Nat) : String :=
  switchName dc i ++ " (" ++ optCurStr (getIdx ls.current i) ++ "A)"

/-- `_checkInterlock()`: notify whenever more than one secondary is on, and
notify once when the condition clears after a posted warning. -/
def _checkInterlock (cfg : Config) (dc : DeviceConfig) (now : ℚ) (w : World) : World :=
  let son := switchesOn cfg w.loadState
  let names := son.map (switchTag dc w.loadState)
  if 1 < son.length then
    let w := _notify cfg now ("Multiple secondary devices are on: " ++ String.intercalate ", " names) w
    { w with interlockPosted := true }
  else if w.interlockPosted then
    let w := _notify cfg now ("Multiple secondary devices cleared; on: " ++ String.intercalate ", " names) w
    { w with interlockPosted := false }
  else w

/-- `_sumCurrents()`: JS `sum += current[i]` over the whole current array; a
hole (`undefined`) poisons the sum to `NaN` (`none`). -/
def _sumCurrents (ls : LoadState) : Option ℚ :=
  ls.current.foldl jsAdd (some 0)

/-- The body of the `for (p = len-1; p > 0; p--)` loop of `_shedLoad`,
recursing on the position `p`; returns the accumulated hitlist, the running
projected total, and the updated world (commands issued, log messages). -/
def _shedLoop (cfg : Config) (p : Nat) (total : Option ℚ) (hitlist : List Nat)
    (w : World) : List Nat × Option ℚ × World :=
  match p with
  | 0 => (hitlist, total, w)
  | q + 1 =>
    if jsLT total cfg.currentMax then (hitlist, total, w)
    else
      let sid? := cfg.switchPriority.get? (q + 1)
      let w := _log cfg ("_shedLoad totalCurrent=" ++ totStr total ++ " p=" ++
        toString (q + 1) ++ " id=" ++ optIdStr sid?) w
      match sid? with
      | none => _shedLoop cfg q total hitlist w
      | some switchId =>
        if jsTruthy (getIdx w.loadState.output switchId) then
          let w := { w with commands := w.commands ++ [(switchId, false)] }
          _shedLoop cfg q (jsSub total (getIdx w.loadState.current switchId))
            (hitlist ++ [switchId]) w
        else
          _shedLoop cfg q total hitlist w

/-- The hitlist a `_shedLoad` pass would build from the given starting total
and world. -/
def shedHitlist (cfg : Config) (total : Option ℚ) (w : World) : List Nat :=
  (_shedLoop cfg (cfg.switchPriority.length - 1) total [] w).1

/-- `_shedLoad(totalCurrent)`: walk the priority list from the last entry down
to (excluding) position 0, turning on-channels off until the projected total
drops below `currentMax`; then send one aggregated notification if anything
was shed. -/
def _shedLoad (cfg : Config) (dc : DeviceConfig) (now : ℚ) (totalCurrent : Option ℚ)
    (w : World) : World :=
  let r := _shedLoop cfg (cfg.switchPriority.length - 1) totalCurrent [] w
  let hitlist := r.1
  let w := r.2.2
  if hitlist.isEmpty then w
  else
    let names := hitlist.map (switchTag dc w.loadState)
    _notify cfg now ("Shedding load: turned off switch(es) " ++ String.intercalate ", " names) w

/-- `updateStatus(notifyStatus)`: the status-handler entry point — filter
non-switch and `aenergy` events, merge the deltas into the store, run the
interlock check, and shed load when the summed current exceeds the maximum. -/
def updateStatus (cfg : Config) (dc : DeviceConfig) (now : ℚ) (ev : NotifyStatus)
    (w : World) : World :=
  if (ev.deltaAenergy).isSome then w
  else if ev.name ≠ "switch" then w
  else
    let w := _updateLoadStateOutput ev w
    let w := _updateLoadStatePower cfg ev w
    let w := _checkInterlock cfg dc now w
    let total := _sumCurrents w.loadState
    let w := _log cfg ("doChecks totalCurrent=" ++ totStr total) w
    if jsGT total cfg.currentMax then _shedLoad cfg dc now total w else w

/-- `_getloadState()`: one-shot startup synchronisation — for every switch in
priority order, query the hardware status (`hw`) and fill both store arrays. -/
def _getloadState (cfg : Config) (hw : Nat → ℚ × Bool) (w : World) : World :=
  cfg.switchPriority.foldl
    (fun w switchId =>
      let status := hw switchId
      let w := _log cfg ("_getloadState sw ID=" ++ toString switchId ++
        " status.current=" ++ toString status.1 ++ " status.output=" ++ boolStr status.2) w
      { w with loadState :=
          { current := setIdx w.loadState.current switchId status.1
            output := setIdx w.loadState.output switchId status.2 } })
    w

/-- A whole sequence of status-handler invocations, each with its own
timestamp. -/
def ingestAll (cfg : Config) (dc : DeviceConfig) (evs : List (ℚ × NotifyStatus))
    (w : World) : World :=
  evs.foldl (fun w p => updateStatus cfg dc p.1 p.2 w) w

/-- A `World` with the source's initial global values (`loadState` empty,
queues empty, flags clear, timestamps zero). -/
def initialWorld : World :=
  { loadState := { current := [], output := [] }
    interlockPosted := false
    logQueue := []
    notifyQueue := []
    lastNotificationMessage := none
    lastNotificationTime := 0
    currentTime := 0
    notificationIntervalCount := 0
    lastRemainingWait := 0
    consoleLog := []
    sent := []
    commands := []
    enqueuedTrace := [] }

/-- Concrete store for exercising a shed pass: switches 0..3 drawing
4, 3, 4 and 8 A, all reported on (aggregate 19 A). -/
def shedDemoWorld : World :=
  { initialWorld with loadState :=
      { current := [some 4, some 3, some 4, some 8]
        output := [some true, some true, some true, some true] } }

/-- Concrete store with the two secondaries 0 and 1 on at 4 A each. -/
def interlockDemoWorld : World :=
  { initialWorld with loadState :=
      { current := [some 4, some 4, some 0, some 0]
        output := [some true, some true, some false, some false] } }

/-- First interlock evaluation on `interlockDemoWorld`. -/
def interlockDemoEval1 : World :=
  _checkInterlock CONFIG deviceConfig 100 interlockDemoWorld

/-- The store after the first evaluation, with the current of switch 0
changed to 5 A (the interlock condition itself unchanged: still two
secondaries on). -/
def interlockDemoMid : World :=
  { interlockDemoEval1 with loadState :=
      { interlockDemoEval1.loadState with
          current := setIdx interlockDemoEval1.loadState.current 0 5 } }

/-- Second interlock evaluation, on the modified store. -/
def interlockDemoEval2 : World :=
  _checkInterlock CONFIG deviceConfig 100 interlockDemoMid

/-- Concrete store for the repeated-ingest scenario: primary (switch 3) on at
14 A, switch 0 on at 4 A, others unknown. -/
def repeatDemoWorld : World :=
  { initialWorld with loadState :=
      { current := [some 4, some 0, some 0, some 14]
        output := [some true, none, none, some true] } }

/-- The repeated delta event: switch 0 reports output on and current 4 A. -/
def repeatDemoEvent : NotifyStatus :=
  { id := 0, name := "switch", deltaOutput := some true, deltaCurrent := some 4
    deltaAenergy := none }

/-- A configuration that omits switch 2 from the priority list. -/
def omitCfg : Config :=
  { CONFIG with switchPriority := [3, 0, 1] }

/-- A status event for the omitted switch 2. -/
def omitEvent : NotifyStatus :=
  { id := 2, name := "switch", deltaOutput := some true, deltaCurrent := some 5
    deltaAenergy := none }

/-- The store after startup sync under `omitCfg` (hardware reporting all
channels off at 0 A) followed by ingesting `omitEvent`. -/
def omitWorld : World :=
  updateStatus omitCfg deviceConfig 0 omitEvent
    (_getloadState omitCfg (fun _ => (0, false)) initialWorld)

/-- A tiny log capacity to exercise log-queue overflow. -/
def smallLogCfg : Config :=
  { CONFIG with logMaxSize := 2 }

/-- A world whose log queue is exactly at `smallLogCfg`'s capacity. -/
def fullLogWorld : World :=
  { initialWorld with logQueue := ["a", "b"] }

/-- A small status event: switch 0 turns on drawing 1 A. -/
def underDemoEvent : NotifyStatus :=
  { id := 0, name := "switch", deltaOutput := some true, deltaCurrent := some 1
    deltaAenergy := none }

/-- A world whose previously enqueued notification was "boom" and with a
message still pending in the notify queue. -/
def dupDemoWorld : World :=
  { initialWorld with
      lastNotificationMessage := some "boom"
      notifyQueue := ["pending"] }

/-! ### Basic lemmas about the sparse-array model -/

theorem getIdx_eq {α : Type} (l : List (Option α)) (i : Nat) :
    getIdx l i = (l[i]?).getD none := by
  simp [getIdx, List.getD_eq_getElem?_getD]

theorem length_setIdx_of_le {α : Type} (l : List (Option α)) {i : Nat} (v : α)
    (h : l.length ≤ i) : (setIdx l i v).length = i + 1 := by
  simp only [setIdx, if_neg (Nat.not_lt.mpr h), List.length_append,
    List.length_replicate, List.length_cons, List.length_nil]
  omega

theorem set_eq_of_getElem? {α : Type} :
    ∀ (l : List α) (i : Nat) (a : α), l[i]? = some a → l.set i a = l
  | [], _, _, h => by simp at h
  | x :: xs, 0, a, h => by
    simp only [List.getElem?_cons_zero, Option.some.injEq] at h
    simp [h]
  | x :: xs, i + 1, a, h => by
    simp only [List.getElem?_cons_succ] at h
    simp [List.set, set_eq_of_getElem? xs i a h]

theorem setIdx_getElem?_self {α : Type} (l : List (Option α)) (i : Nat) (v : α) :
    (setIdx l i v)[i]? = some (some v) := by
  unfold setIdx
  by_cases h : i < l.length
  · simp [h, List.getElem?_set_self]
  · rw [if_neg h]
    have hlen : (l ++ List.replicate (i - l.length) none).length = i := by
      simp [List.length_append, List.length_replicate]; omega
    rw [List.getElem?_append_right (Nat.le_of_eq hlen)]
    simp [hlen]

theorem getIdx_setIdx_self {α : Type} (l : List (Option α)) (i : Nat) (v : α) :
    getIdx (setIdx l i v) i = some v := by
  rw [getIdx_eq, setIdx_getElem?_self]
  rfl

theorem getIdx_setIdx_ne {α : Type} (l : List (Option α)) {i j : Nat} (v : α)
    (h : i ≠ j) : getIdx (setIdx l i v) j = getIdx l j := by
  rw [getIdx_eq, getIdx_eq]
  unfold setIdx
  by_cases hi : i < l.length
  · rw [if_pos hi, List.getElem?_set_ne h]
  · rw [if_neg hi]
    by_cases hj : j < l.length
    · rw [List.getElem?_append_left, List.getElem?_append_left hj]
      simp [List.length_append, List.length_replicate]
      omega
    · rw [List.getElem?_eq_none (Nat.le_of_not_lt hj)]
      by_cases hj2 : j < (l ++ List.replicate (i - l.length) none).length
      · rw [List.getElem?_append_left hj2,
          List.getElem?_append_right (Nat.le_of_not_lt hj), List.getElem?_replicate]
        have : j - l.length < i - l.length := by
          simp [List.length_append, List.length_replicate] at hj2; omega
        simp [this]
      · rw [List.getElem?_append_right (Nat.le_of_not_lt hj2)]
        have hlen : (l ++ List.replicate (i - l.length) none).length = i := by
          simp [List.length_append, List.length_replicate]; omega
        have hj3 : i ≤ j := hlen ▸ Nat.le_of_not_lt hj2
        have hnone : ([some v] : List (Option α))[j -
            (l ++ List.replicate (i - l.length) none).length]? = none := by
          apply List.getElem?_eq_none
          rw [hlen]
          simp only [List.length_cons, List.length_nil]
          omega
        rw [hnone]

theorem setIdx_idem {α : Type} (l : List (Option α)) (i : Nat) (v : α) :
    setIdx (setIdx l i v) i v = setIdx l i v := by
  have hget := setIdx_getElem?_self l i v
  have hlt : i < (setIdx l i v).length := by
    by_cases h : i < l.length
    · simp [setIdx, h]
    · rw [length_setIdx_of_le l v (Nat.le_of_not_lt h)]; omega
  rw [setIdx, if_pos hlt, set_eq_of_getElem? _ _ _ hget]

theorem getIdx_setIdx_isSome {α : Type} (l : List (Option α)) (i j : Nat) (v : α)
    (h : (getIdx l j).isSome) : (getIdx (setIdx l i v) j).isSome := by
  by_cases hij : i = j
  · subst hij; rw [getIdx_setIdx_self]; rfl
  · rw [getIdx_setIdx_ne l v hij]; exact h

/-! ### Frame lemmas: which `World` fields each operation leaves unchanged -/

@[simp] theorem _log_loadState (cfg : Config) (msg : String) (w : World) :
    (_log cfg msg w).loadState = w.loadState := by
  unfold _log
  split
  · rfl
  · split <;> rfl

@[simp] theorem _log_notifyQueue (cfg : Config) (msg : String) (w : World) :
    (_log cfg msg w).notifyQueue = w.notifyQueue := by
  unfold _log
  split
  · rfl
  · split <;> rfl

@[simp] theorem _log_lastMsg (cfg : Config) (msg : String) (w : World) :
    (_log cfg msg w).lastNotificationMessage = w.lastNotificationMessage := by
  unfold _log
  split
  · rfl
  · split <;> rfl

@[simp] theorem _log_lastTime (cfg : Config) (msg : String) (w : World) :
    (_log cfg msg w).lastNotificationTime = w.lastNotificationTime := by
  unfold _log
  split
  · rfl
  · split <;> rfl

@[simp] theorem _log_sent (cfg : Config) (msg : String) (w : World) :
    (_log cfg msg w).sent = w.sent := by
  unfold _log
  split
  · rfl
  · split <;> rfl

@[simp] theorem _log_commands (cfg : Config) (msg : String) (w : World) :
    (_log cfg msg w).commands = w.commands := by
  unfold _log
  split
  · rfl
  · split <;> rfl

@[simp] theorem _log_enqueuedTrace (cfg : Config) (msg : String) (w : World) :
    (_log cfg msg w).enqueuedTrace = w.enqueuedTrace := by
  unfold _log
  split
  · rfl
  · split <;> rfl

@[simp] theorem _log_interlockPosted (cfg : Config) (msg : String) (w : World) :
    (_log cfg msg w).interlockPosted = w.interlockPosted := by
  unfold _log
  split
  · rfl
  · split <;> rfl

@[simp] theorem postNotification_loadState (cfg : Config) (msg : String) (w : World) :
    (postNotification cfg msg w).loadState = w.loadState := by
  simp [postNotification]

@[simp] theorem postNotification_commands (cfg : Config) (msg : String) (w : World) :
    (postNotification cfg msg w).commands = w.commands := by
  simp [postNotification]

@[simp] theorem postNotification_enqueuedTrace (cfg : Config) (msg : String) (w : World) :
    (postNotification cfg msg w).enqueuedTrace = w.enqueuedTrace := by
  simp [postNotification]

@[simp] theorem postNotification_lastMsg (cfg : Config) (msg : String) (w : World) :
    (postNotification cfg msg w).lastNotificationMessage = w.lastNotificationMessage := by
  simp [postNotification]

@[simp] theorem postNotification_interlockPosted (cfg : Config) (msg : String) (w : World) :
    (postNotification cfg msg w).interlockPosted = w.interlockPosted := by
  simp [postNotification]

@[simp] theorem postNotification_notifyQueue (cfg : Config) (msg : String) (w : World) :
    (postNotification cfg msg w).notifyQueue = w.notifyQueue := by
  simp [postNotification]

@[simp] theorem _notifyWrite_loadState (cfg : Config) (now : ℚ) (bt : Bool) (w : World) :
    (_notifyWrite cfg now bt w).loadState = w.loadState := by
  unfold _notifyWrite
  dsimp only
  split
  · split <;> simp
  · rfl

@[simp] theorem _notifyWrite_commands (cfg : Config) (now : ℚ) (bt : Bool) (w : World) :
    (_notifyWrite cfg now bt w).commands = w.commands := by
  unfold _notifyWrite
  dsimp only
  split
  · split <;> simp
  · rfl

@[simp] theorem _notifyWrite_enqueuedTrace (cfg : Config) (now : ℚ) (bt : Bool) (w : World) :
    (_notifyWrite cfg now bt w).enqueuedTrace = w.enqueuedTrace := by
  unfold _notifyWrite
  dsimp only
  split
  · split <;> simp
  · rfl

@[simp] theorem _notifyWrite_lastMsg (cfg : Config) (now : ℚ) (bt : Bool) (w : World) :
    (_notifyWrite cfg now bt w).lastNotificationMessage = w.lastNotificationMessage := by
  unfold _notifyWrite
  dsimp only
  split
  · split <;> simp
  · rfl

@[simp] theorem _notifyWrite_interlockPosted (cfg : Config) (now : ℚ) (bt : Bool) (w : World) :
    (_notifyWrite cfg now bt w).interlockPosted = w.interlockPosted := by
  unfold _notifyWrite
  dsimp only
  split
  · split <;> simp
  · rfl

theorem _notifyWrite_queue_cases (cfg : Config) (now : ℚ) (bt : Bool) (w : World) :
    (_notifyWrite cfg now bt w).notifyQueue = w.notifyQueue ∨
    (_notifyWrite cfg now bt w).notifyQueue = w.notifyQueue.tail := by
  unfold _notifyWrite
  dsimp only
  split
  · split
    · left; simp
    · right; simp_all
  · left; rfl

theorem _notify_nil_url (cfg : Config) (now : ℚ) (m : String) (w : World)
    (h : cfg.httpNtfyURL = "") : _notify cfg now m w = w := by
  unfold _notify
  rw [if_pos h]

theorem _notify_dup (cfg : Config) (now : ℚ) (m : String) (w : World)
    (h : some m = w.lastNotificationMessage) : _notify cfg now m w = w := by
  unfold _notify
  split
  · rfl
  · rfl

@[simp] theorem _notify_loadState (cfg : Config) (now : ℚ) (m : String) (w : World) :
    (_notify cfg now m w).loadState = w.loadState := by
  unfold _notify
  dsimp only
  split
  · rfl
  · split
    · rfl
    · split <;> simp

@[simp] theorem _notify_commands (cfg : Config) (now : ℚ) (m : String) (w : World) :
    (_notify cfg now m w).commands = w.commands := by
  unfold _notify
  dsimp only
  split
  · rfl
  · split
    · rfl
    · split <;> simp

@[simp] theorem _notify_interlockPosted (cfg : Config) (now : ℚ) (m : String) (w : World) :
    (_notify cfg now m w).interlockPosted = w.interlockPosted := by
  unfold _notify
  dsimp only
  split
  · rfl
  · split
    · rfl
    · split <;> simp

theorem _notify_lastMsg (cfg : Config) (now : ℚ) (m : String) (w : World)
    (h : cfg.httpNtfyURL ≠ "") :
    (_notify cfg now m w).lastNotificationMessage = some m := by
  unfold _notify
  dsimp only
  split
  · exact absurd (by assumption) h
  · split
    · exact (by assumption : some m = w.lastNotificationMessage).symm
    · split <;> simp

theorem _notify_trace_push (cfg : Config) (now : ℚ) (m : String) (w : World)
    (h : cfg.httpNtfyURL ≠ "") (h2 : some m ≠ w.lastNotificationMessage) :
    (_notify cfg now m w).enqueuedTrace = w.enqueuedTrace ++ [m] := by
  unfold _notify
  dsimp only
  rw [if_neg h, if_neg h2]
  split <;> simp

theorem _notify_trace_cases (cfg : Config) (now : ℚ) (m : String) (w : World) :
    (_notify cfg now m w).enqueuedTrace = w.enqueuedTrace ∨
    (_notify cfg now m w).enqueuedTrace = w.enqueuedTrace ++ [m] := by
  by_cases h : cfg.httpNtfyURL = ""
  · left; rw [_notify_nil_url cfg now m w h]
  · by_cases h2 : some m = w.lastNotificationMessage
    · left; rw [_notify_dup cfg now m w h2]
    · right; exact _notify_trace_push cfg now m w h h2

@[simp] theorem _checkInterlock_loadState (cfg : Config) (dc : DeviceConfig) (now : ℚ)
    (w : World) : (_checkInterlock cfg dc now w).loadState = w.loadState := by
  unfold _checkInterlock
  dsimp only
  split
  · simp
  · split <;> simp

@[simp] theorem _checkInterlock_commands (cfg : Config) (dc : DeviceConfig) (now : ℚ)
    (w : World) : (_checkInterlock cfg dc now w).commands = w.commands := by
  unfold _checkInterlock
  dsimp only
  split
  · simp
  · split <;> simp

theorem interlock_msg_on_split (s : String) :
    "Multiple secondary devices are on: " ++ s =
      "Multiple secondary devices" ++ (" are on: " ++ s) := by
  rw [← String.append_assoc]
  rfl

theorem interlock_msg_clear_split (s : String) :
    "Multiple secondary devices cleared; on: " ++ s =
      "Multiple secondary devices" ++ (" cleared; on: " ++ s) := by
  rw [← String.append_assoc]
  rfl

theorem _checkInterlock_trace_cases (cfg : Config) (dc : DeviceConfig) (now : ℚ)
    (w : World) :
    (_checkInterlock cfg dc now w).enqueuedTrace = w.enqueuedTrace ∨
    ∃ r, (_checkInterlock cfg dc now w).enqueuedTrace =
      w.enqueuedTrace ++ ["Multiple secondary devices" ++ r] := by
  unfold _checkInterlock
  dsimp only
  split
  · rcases _notify_trace_cases cfg now
      ("Multiple secondary devices are on: " ++
        String.intercalate ", " ((switchesOn cfg w.loadState).map (switchTag dc w.loadState))) w with h | h
    · left; simpa using h
    · right
      refine ⟨" are on: " ++ String.intercalate ", "
        ((switchesOn cfg w.loadState).map (switchTag dc w.loadState)), ?_⟩
      rw [← interlock_msg_on_split]
      simpa using h
  · split
    · rcases _notify_trace_cases cfg now
        ("Multiple secondary devices cleared; on: " ++
          String.intercalate ", " ((switchesOn cfg w.loadState).map (switchTag dc w.loadState))) w with h | h
      · left; simpa using h
      · right
        refine ⟨" cleared; on: " ++ String.intercalate ", "
          ((switchesOn cfg w.loadState).map (switchTag dc w.loadState)), ?_⟩
        rw [← interlock_msg_clear_split]
        simpa using h
    · left; rfl

theorem _updateLoadStateOutput_eq (ev : NotifyStatus) (w : World) :
    _updateLoadStateOutput ev w =
      { w with loadState :=
          { current := w.loadState.current
            output := match ev.deltaOutput with
                      | none => w.loadState.output
                      | some b => setIdx w.loadState.output ev.id b } } := by
  cases h : ev.deltaOutput <;> simp [_updateLoadStateOutput, h]

@[simp] theorem _updateLoadStatePower_output (cfg : Config) (ev : NotifyStatus) (w : World) :
    (_updateLoadStatePower cfg ev w).loadState.output = w.loadState.output := by
  unfold _updateLoadStatePower
  cases h : ev.deltaCurrent
  · rfl
  · dsimp only
    split <;> simp

theorem _updateLoadStatePower_current (cfg : Config) (ev : NotifyStatus) (w : World) :
    (_updateLoadStatePower cfg ev w).loadState.current =
      (match ev.deltaCurrent with
       | none => w.loadState.current
       | some c => setIdx w.loadState.current ev.id c) := by
  unfold _updateLoadStatePower
  cases h : ev.deltaCurrent
  · rfl
  · dsimp only
    split <;> simp

@[simp] theorem _updateLoadStatePower_commands (cfg : Config) (ev : NotifyStatus) (w : World) :
    (_updateLoadStatePower cfg ev w).commands = w.commands := by
  unfold _updateLoadStatePower
  cases h : ev.deltaCurrent
  · rfl
  · dsimp only
    split <;> simp

@[simp] theorem _updateLoadStatePower_enqueuedTrace (cfg : Config) (ev : NotifyStatus) (w : World) :
    (_updateLoadStatePower cfg ev w).enqueuedTrace = w.enqueuedTrace := by
  unfold _updateLoadStatePower
  cases h : ev.deltaCurrent
  · rfl
  · dsimp only
    split <;> simp

@[simp] theorem _updateLoadStateOutput_commands (ev : NotifyStatus) (w : World) :
    (_updateLoadStateOutput ev w).commands = w.commands := by
  cases h : ev.deltaOutput <;> simp [_updateLoadStateOutput, h]

@[simp] theorem _updateLoadStateOutput_enqueuedTrace (ev : NotifyStatus) (w : World) :
    (_updateLoadStateOutput ev w).enqueuedTrace = w.enqueuedTrace := by
  cases h : ev.deltaOutput <;> simp [_updateLoadStateOutput, h]

theorem _shedLoop_spec (cfg : Config) (p : Nat) :
    ∀ (total : Option ℚ) (hl : List Nat) (w : World),
    ∃ ext, (_shedLoop cfg p total hl w).1 = hl ++ ext ∧
      (_shedLoop cfg p total hl w).2.2.commands = w.commands ++ ext.map (fun i => (i, false)) ∧
      (_shedLoop cfg p total hl w).2.2.loadState = w.loadState ∧
      (_shedLoop cfg p total hl w).2.2.enqueuedTrace = w.enqueuedTrace ∧
      ∀ x ∈ ext, ∃ j, 1 ≤ j ∧ j ≤ p ∧ cfg.switchPriority.get? j = some x := by
  induction p with
  | zero =>
    intro total hl w
    exact ⟨[], by simp [_shedLoop]⟩
  | succ q ih =>
    intro total hl w
    by_cases hstop : jsLT total cfg.currentMax = true
    · refine ⟨[], ?_⟩
      simp [_shedLoop, hstop]
    · cases hsid : cfg.switchPriority.get? (q + 1) with
      | none =>
        obtain ⟨ext, h1, h2, h3, h4, h5⟩ := ih total hl
          (_log cfg ("_shedLoad totalCurrent=" ++ totStr total ++ " p=" ++
            toString (q + 1) ++ " id=" ++ optIdStr none) w)
        simp only [_shedLoop, if_neg hstop, hsid]
        refine ⟨ext, h1, by simpa using h2, by simpa using h3, by simpa using h4, ?_⟩
        intro x hx
        obtain ⟨j, hj1, hj2, hj3⟩ := h5 x hx
        exact ⟨j, hj1, Nat.le_succ_of_le hj2, hj3⟩
      | some switchId =>
        by_cases hon : jsTruthy (getIdx w.loadState.output switchId) = true
        · obtain ⟨ext, h1, h2, h3, h4, h5⟩ :=
            ih (jsSub total (getIdx w.loadState.current switchId)) (hl ++ [switchId])
              { _log cfg ("_shedLoad totalCurrent=" ++ totStr total ++ " p=" ++
                  toString (q + 1) ++ " id=" ++ optIdStr (some switchId)) w with
                commands := w.commands ++ [(switchId, false)] }
          dsimp only at h1 h2 h3 h4
          simp only [_log_loadState, _log_commands] at h1 h2 h3 h4
          simp only [_shedLoop, if_neg hstop, hsid, _log_loadState, _log_commands]
          rw [if_pos hon]
          refine ⟨switchId :: ext, ?_, ?_, ?_, ?_, ?_⟩
          · rw [h1, List.append_assoc]
            rfl
          · rw [h2]
            try simp
          · rw [h3]
            try simp
          · rw [h4]
            try simp
          · intro x hx
            rcases List.mem_cons.mp hx with hx | hx
            · exact ⟨q + 1, Nat.le_add_left 1 q, Nat.le_refl _, hx ▸ hsid⟩
            · obtain ⟨j, hj1, hj2, hj3⟩ := h5 x hx
              exact ⟨j, hj1, Nat.le_succ_of_le hj2, hj3⟩
        · obtain ⟨ext, h1, h2, h3, h4, h5⟩ := ih total hl
            (_log cfg ("_shedLoad totalCurrent=" ++ totStr total ++ " p=" ++
              toString (q + 1) ++ " id=" ++ optIdStr (some switchId)) w)
          simp only [_shedLoop, if_neg hstop, hsid, _log_loadState]
          rw [if_neg hon]
          refine ⟨ext, h1, by simpa using h2, by simpa using h3, by simpa using h4, ?_⟩
          intro x hx
          obtain ⟨j, hj1, hj2, hj3⟩ := h5 x hx
          exact ⟨j, hj1, Nat.le_succ_of_le hj2, hj3⟩

theorem _shedLoad_loadState (cfg : Config) (dc : DeviceConfig) (now : ℚ)
    (total : Option ℚ) (w : World) :
    (_shedLoad cfg dc now total w).loadState = w.loadState := by
  obtain ⟨ext, h1, h2, h3, h4, h5⟩ :=
    _shedLoop_spec cfg (cfg.switchPriority.length - 1) total [] w
  unfold _shedLoad
  dsimp only
  split
  · exact h3
  · rw [_notify_loadState]
    exact h3

theorem _shedLoad_commands (cfg : Config) (dc : DeviceConfig) (now : ℚ)
    (total : Option ℚ) (w : World) :
    (_shedLoad cfg dc now total w).commands =
      w.commands ++ (shedHitlist cfg total w).map (fun i => (i, false)) := by
  obtain ⟨ext, h1, h2, h3, h4, h5⟩ :=
    _shedLoop_spec cfg (cfg.switchPriority.length - 1) total [] w
  have hh : shedHitlist cfg total w = ext := by
    rw [shedHitlist, h1, List.nil_append]
  unfold _shedLoad
  dsimp only
  split
  · rw [h2, hh]
  · rw [_notify_commands, h2, hh]

theorem shedHitlist_mem (cfg : Config) (total : Option ℚ) (w : World) (x : Nat)
    (hx : x ∈ shedHitlist cfg total w) :
    ∃ j, 1 ≤ j ∧ cfg.switchPriority.get? j = some x := by
  obtain ⟨ext, h1, h2, h3, h4, h5⟩ :=
    _shedLoop_spec cfg (cfg.switchPriority.length - 1) total [] w
  rw [shedHitlist, h1, List.nil_append] at hx
  obtain ⟨j, hj1, hj2, hj3⟩ := h5 x hx
  exact ⟨j, hj1, hj3⟩

theorem _shedLoop_stop (cfg : Config) (p : Nat) (total : Option ℚ) (hl : List Nat)
    (w : World) (h : jsLT total cfg.currentMax = true) :
    _shedLoop cfg p total hl w = (hl, total, w) := by
  cases p with
  | zero => rfl
  | succ q => simp [_shedLoop, h]

theorem _shedLoad_trace_cases (cfg : Config) (dc : DeviceConfig) (now : ℚ)
    (total : Option ℚ) (w : World) :
    (_shedLoad cfg dc now total w).enqueuedTrace = w.enqueuedTrace ∨
    ∃ r, (_shedLoad cfg dc now total w).enqueuedTrace =
      w.enqueuedTrace ++ ["Shedding load: turned off switch(es) " ++ r] := by
  obtain ⟨ext, h1, h2, h3, h4, h5⟩ :=
    _shedLoop_spec cfg (cfg.switchPriority.length - 1) total [] w
  unfold _shedLoad
  dsimp only
  split
  · left; exact h4
  · rcases _notify_trace_cases cfg now
      ("Shedding load: turned off switch(es) " ++ String.intercalate ", "
        (((_shedLoop cfg (cfg.switchPriority.length - 1) total [] w).1).map
          (switchTag dc (_shedLoop cfg (cfg.switchPriority.length - 1) total [] w).2.2.loadState)))
      (_shedLoop cfg (cfg.switchPriority.length - 1) total [] w).2.2 with h | h
    · left; rw [h]; exact h4
    · right
      exact ⟨_, by rw [h, h4]⟩

@[simp] theorem postNotification_sent (cfg : Config) (msg : String) (w : World) :
    (postNotification cfg msg w).sent = w.sent ++ [msg] := by
  simp [postNotification]

/-! ### Claim theorems -/

/-- C10: a load-shedding pass (`_shedLoad`) never modifies the channel state
store: for every configuration (priority order and `currentMax`), starting
total, and world, both `loadState.output` and `loadState.current` are
identical before and after the pass — the subtraction of a shed channel's
current only affects the local projected total. -/
theorem shedLoad_never_modifies_store (cfg : Config) (dc : DeviceConfig) (now : ℚ)
    (total : Option ℚ) (w : World) :
    (_shedLoad cfg dc now total w).loadState.output = w.loadState.output ∧
    (_shedLoad cfg dc now total w).loadState.current = w.loadState.current := by
  rw [_shedLoad_loadState]
  exact ⟨rfl, rfl⟩

/-- C8: enqueueing (`_notify`) a message textually identical to the
immediately previously enqueued message is a complete no-op: the whole world
(queue, last-send timestamp, everything) is unchanged and nothing is sent. -/
theorem notify_duplicate_noop (cfg : Config) (now : ℚ) (msg : String) (w : World)
    (h : w.lastNotificationMessage = some msg) :
    _notify cfg now msg w = w :=
  _notify_dup cfg now msg w h.symm

theorem notify_duplicate_noop_witness :
    dupDemoWorld.lastNotificationMessage = some "boom" ∧
    _notify CONFIG 100 "boom" dupDemoWorld = dupDemoWorld :=
  ⟨rfl, notify_duplicate_noop CONFIG 100 "boom" dupDemoWorld rfl⟩

/-- C4: for every store, every priority order whose first entry (the primary)
does not reappear among the later entries, and every starting total, a
load-shedding pass never selects the primary: it is not in the shed hitlist
and no `Switch.Set` off-command for it is issued — even when shedding every
secondary leaves the projected total above `currentMax`. -/
theorem shed_never_selects_primary (cfg : Config) (dc : DeviceConfig) (now : ℚ)
    (total : Option ℚ) (w : World) (prim : Nat) (rest : List Nat)
    (hp : cfg.switchPriority = prim :: rest) (hnd : prim ∉ rest) :
    prim ∉ shedHitlist cfg total w ∧
    ∀ b, (prim, b) ∈ (_shedLoad cfg dc now total w).commands →
      (prim, b) ∈ w.commands := by
  have hnotmem : prim ∉ shedHitlist cfg total w := by
    intro hx
    obtain ⟨j, hj1, hj3⟩ := shedHitlist_mem cfg total w prim hx
    match j, hj1, hj3 with
    | k + 1, _, hj3 =>
      rw [hp, List.get?_cons_succ] at hj3
      exact hnd (List.get?_mem hj3)
  refine ⟨hnotmem, ?_⟩
  intro b hb
  rw [_shedLoad_commands] at hb
  rcases List.mem_append.mp hb with h | h
  · exact h
  · exfalso
    obtain ⟨x, hx, hxe⟩ := List.mem_map.mp h
    have hxp : x = prim := congrArg Prod.fst hxe
    exact hnotmem (hxp ▸ hx)

theorem shed_never_selects_primary_witness :
    CONFIG.switchPriority = 3 :: [0, 1, 2] ∧ (3 : Nat) ∉ ([0, 1, 2] : List Nat) ∧
    (3 ∉ shedHitlist CONFIG (some 19) shedDemoWorld ∧
     ∀ b, ((3 : Nat), b) ∈ (_shedLoad CONFIG deviceConfig 100 (some 19) shedDemoWorld).commands →
       ((3 : Nat), b) ∈ shedDemoWorld.commands) :=
  ⟨rfl, by decide,
    shed_never_selects_primary CONFIG deviceConfig 100 (some 19) shedDemoWorld 3 [0, 1, 2]
      rfl (by decide)⟩

/-- C9: each `_notifyWrite` call sends at most one message; it sends exactly
one iff the queue is non-empty and either `byTimer` is set or the elapsed time
since the last send strictly exceeds the interval; and the remaining-wait
value computed for rescheduling is clamped to `[0, interval]`. -/
theorem notifyWrite_send_iff (cfg : Config) (now : ℚ) (bt : Bool) (w : World) :
    ((_notifyWrite cfg now bt w).sent = w.sent ∨
      ∃ m, (_notifyWrite cfg now bt w).sent = w.sent ++ [m]) ∧
    ((∃ m, (_notifyWrite cfg now bt w).sent = w.sent ++ [m]) ↔
      (w.notifyQueue ≠ [] ∧
        (bt = true ∨ cfg.notifyInterval < now - w.lastNotificationTime))) ∧
    (0 ≤ cfg.notifyInterval →
      0 ≤ (_notifyWrite cfg now bt w).lastRemainingWait ∧
      (_notifyWrite cfg now bt w).lastRemainingWait ≤ cfg.notifyInterval) := by
  have hwait : 0 ≤ cfg.notifyInterval →
      0 ≤ (_notifyWrite cfg now bt w).lastRemainingWait ∧
      (_notifyWrite cfg now bt w).lastRemainingWait ≤ cfg.notifyInterval := by
    intro h0
    unfold _notifyWrite
    dsimp only
    constructor
    · split
      · split <;> exact le_max_left 0 _
      · exact le_max_left 0 _
    · split
      · split <;> exact max_le h0 (min_le_right _ _)
      · exact max_le h0 (min_le_right _ _)
  by_cases hc : (bt || decide (cfg.notifyInterval - (now - w.lastNotificationTime) < 0)) = true
  · cases hq : w.notifyQueue with
    | nil =>
      have hsent : (_notifyWrite cfg now bt w).sent = w.sent := by
        unfold _notifyWrite
        dsimp only
        rw [if_pos hc, hq]
      refine ⟨Or.inl hsent, ?_, hwait⟩
      constructor
      · rintro ⟨m, hm⟩
        rw [hsent] at hm
        exact absurd hm (by simp)
      · rintro ⟨hne, _⟩
        exact absurd rfl hne
    | cons m rest =>
      have hsent : (_notifyWrite cfg now bt w).sent = w.sent ++ [m] := by
        unfold _notifyWrite
        dsimp only
        rw [if_pos hc, hq]
        simp
      refine ⟨Or.inr ⟨m, hsent⟩, ?_, hwait⟩
      constructor
      · intro _
        refine ⟨by simp [hq], ?_⟩
        simp only [Bool.or_eq_true] at hc
        rcases hc with hbt | hdec
        · exact Or.inl hbt
        · exact Or.inr (by have := of_decide_eq_true hdec; linarith)
      · intro _
        exact ⟨m, hsent⟩
  · have hsent : (_notifyWrite cfg now bt w).sent = w.sent := by
      unfold _notifyWrite
      dsimp only
      rw [if_neg hc]
    refine ⟨Or.inl hsent, ?_, hwait⟩
    constructor
    · rintro ⟨m, hm⟩
      rw [hsent] at hm
      exact absurd hm (by simp)
    · rintro ⟨hne, hcond⟩
      exfalso
      apply hc
      rcases hcond with hbt | hlt
      · simp [hbt]
      · simp only [Bool.or_eq_true]
        exact Or.inr (decide_eq_true (by linarith))

theorem notifyWrite_send_iff_witness :
    0 ≤ CONFIG.notifyInterval ∧
    (0 ≤ (_notifyWrite CONFIG 100 false initialWorld).lastRemainingWait ∧
     (_notifyWrite CONFIG 100 false initialWorld).lastRemainingWait ≤ CONFIG.notifyInterval) :=
  ⟨by decide, (notifyWrite_send_iff CONFIG 100 false initialWorld).2.2 (by decide)⟩

/-- C6: if, after merging the event's deltas, the summed current over the
store does not exceed `currentMax`, then processing the event issues no
`Switch.Set` command and enqueues no shed notification (any message enqueued
is an interlock message, prefixed "Multiple secondary devices"). -/
theorem no_action_when_under_max (cfg : Config) (dc : DeviceConfig) (now : ℚ)
    (ev : NotifyStatus) (w : World)
    (h : jsGT (_sumCurrents
          (_updateLoadStatePower cfg ev (_updateLoadStateOutput ev w)).loadState)
          cfg.currentMax = false) :
    (updateStatus cfg dc now ev w).commands = w.commands ∧
    ∀ m ∈ (updateStatus cfg dc now ev w).enqueuedTrace,
      m ∈ w.enqueuedTrace ∨ ∃ r, m = "Multiple secondary devices" ++ r := by
  unfold updateStatus
  dsimp only
  split
  · exact ⟨rfl, fun m hm => Or.inl hm⟩
  · split
    · exact ⟨rfl, fun m hm => Or.inl hm⟩
    · rw [_checkInterlock_loadState]
      rw [if_neg (by rw [h]; simp)]
      constructor
      · simp
      · intro m hm
        rw [_log_enqueuedTrace] at hm
        rcases _checkInterlock_trace_cases cfg dc now
          (_updateLoadStatePower cfg ev (_updateLoadStateOutput ev w)) with hcase | ⟨r, hcase⟩
        · rw [hcase] at hm
          left
          simpa using hm
        · rw [hcase] at hm
          rcases List.mem_append.mp hm with hm | hm
          · left
            simpa using hm
          · right
            exact ⟨r, by simpa using hm⟩

theorem no_action_when_under_max_witness :
    jsGT (_sumCurrents
        (_updateLoadStatePower CONFIG underDemoEvent
          (_updateLoadStateOutput underDemoEvent initialWorld)).loadState)
      CONFIG.currentMax = false ∧
    ((updateStatus CONFIG deviceConfig 0 underDemoEvent initialWorld).commands =
        initialWorld.commands ∧
     ∀ m ∈ (updateStatus CONFIG deviceConfig 0 underDemoEvent initialWorld).enqueuedTrace,
       m ∈ initialWorld.enqueuedTrace ∨ ∃ r, m = "Multiple secondary devices" ++ r) :=
  ⟨of_decide_eq_true (by with_unfolding_all rfl),
   no_action_when_under_max CONFIG deviceConfig 0 underDemoEvent initialWorld
     (of_decide_eq_true (by with_unfolding_all rfl))⟩

/-- C1 counterexample: with `CONFIG` (currentMax 15) and all four switches on
at 4, 3, 4 and 8 A (aggregate 19), the pass sheds switch 2 (4 A), bringing
the projected total to exactly 15 = currentMax while the next candidate
(switch 1) is still on — and then sheds switch 1 as well, refuting the claim
that the walk halts when the projected total is at (not strictly below)
`currentMax`. -/
theorem shed_continues_at_exact_max :
    CONFIG.currentMax = 15 ∧
    _sumCurrents shedDemoWorld.loadState = some 19 ∧
    jsSub (some 19) (getIdx shedDemoWorld.loadState.current 2) = some 15 ∧
    jsTruthy (getIdx shedDemoWorld.loadState.output 1) = true ∧
    shedHitlist CONFIG (some 19) shedDemoWorld = [2, 1] ∧
    (_shedLoad CONFIG deviceConfig 100 (some 19) shedDemoWorld).commands =
      [(2, false), (1, false)] :=
  of_decide_eq_true (by with_unfolding_all rfl)

/-- C1 amended: the walk over the priority list halts as soon as the running
projected total drops strictly below `currentMax` (returning immediately with
nothing further shed), or when candidates are exhausted; when the projected
total is exactly `currentMax` and the current position holds an on-candidate,
that candidate IS commanded off (it becomes the next hitlist entry). -/
theorem shed_halt_strict (cfg : Config) (p : Nat) (total : Option ℚ)
    (hl : List Nat) (w : World) :
    (jsLT total cfg.currentMax = true → _shedLoop cfg p total hl w = (hl, total, w)) ∧
    (∀ q switchId, p = q + 1 → total = some cfg.currentMax →
      cfg.switchPriority.get? p = some switchId →
      jsTruthy (getIdx w.loadState.output switchId) = true →
      (_shedLoop cfg p total hl w).1.get? hl.length = some switchId) := by
  constructor
  · intro h
    exact _shedLoop_stop cfg p total hl w h
  · rintro q switchId rfl htot hsid hon
    subst htot
    have hstop : ¬ jsLT (some cfg.currentMax) cfg.currentMax = true := by
      simp [jsLT]
    obtain ⟨ext, h1, h2, h3, h4, h5⟩ :=
      _shedLoop_spec cfg q
        (jsSub (some cfg.currentMax) (getIdx w.loadState.current switchId))
        (hl ++ [switchId])
        { _log cfg ("_shedLoad totalCurrent=" ++ totStr (some cfg.currentMax) ++ " p=" ++
            toString (q + 1) ++ " id=" ++ optIdStr (some switchId)) w with
          commands := w.commands ++ [(switchId, false)] }
    dsimp only at h1
    simp only [_log_loadState, _log_commands] at h1
    simp only [_shedLoop, if_neg hstop, hsid, _log_loadState, _log_commands]
    rw [if_pos hon, h1, List.append_assoc, List.get?_append_right (Nat.le_refl _)]
    simp

theorem shed_halt_strict_witness :
    (jsLT (some 10) CONFIG.currentMax = true ∧
     _shedLoop CONFIG 3 (some 10) [] shedDemoWorld = ([], some 10, shedDemoWorld)) ∧
    (CONFIG.switchPriority.get? 3 = some 2 ∧
     jsTruthy (getIdx shedDemoWorld.loadState.output 2) = true ∧
     (_shedLoop CONFIG 3 (some CONFIG.currentMax) [] shedDemoWorld).1.get? 0 = some 2) :=
  ⟨⟨of_decide_eq_true (by with_unfolding_all rfl),
    (shed_halt_strict CONFIG 3 (some 10) [] shedDemoWorld).1
      (of_decide_eq_true (by with_unfolding_all rfl))⟩,
   ⟨of_decide_eq_true (by with_unfolding_all rfl),
    of_decide_eq_true (by with_unfolding_all rfl),
    (shed_halt_strict CONFIG 3 (some CONFIG.currentMax) [] shedDemoWorld).2 2 2 rfl rfl
      (of_decide_eq_true (by with_unfolding_all rfl))
      (of_decide_eq_true (by with_unfolding_all rfl))⟩⟩

theorem LoadState.ext_eq (a b : LoadState) (hc : a.current = b.current)
    (ho : a.output = b.output) : a = b := by
  cases a
  cases b
  cases hc
  cases ho
  rfl

theorem updateStatus_loadState (cfg : Config) (dc : DeviceConfig) (now : ℚ)
    (ev : NotifyStatus) (w : World) :
    (updateStatus cfg dc now ev w).loadState =
      (if (ev.deltaAenergy).isSome then w
       else if ev.name ≠ "switch" then w
       else _updateLoadStatePower cfg ev (_updateLoadStateOutput ev w)).loadState := by
  unfold updateStatus
  dsimp only
  split
  · rfl
  · split
    · rfl
    · split
      · rw [_shedLoad_loadState, _log_loadState, _checkInterlock_loadState]
      · rw [_log_loadState, _checkInterlock_loadState]

theorem merged_loadState_idem (cfg : Config) (ev : NotifyStatus) (w w' : World)
    (h : w'.loadState = (_updateLoadStatePower cfg ev (_updateLoadStateOutput ev w)).loadState) :
    (_updateLoadStatePower cfg ev (_updateLoadStateOutput ev w')).loadState =
      (_updateLoadStatePower cfg ev (_updateLoadStateOutput ev w)).loadState := by
  apply LoadState.ext_eq
  · rw [_updateLoadStatePower_current, _updateLoadStatePower_current]
    cases hc : ev.deltaCurrent with
    | none =>
      rw [_updateLoadStateOutput_eq, _updateLoadStateOutput_eq]
      dsimp only
      rw [h, _updateLoadStatePower_current, _updateLoadStateOutput_eq, hc]
    | some c =>
      rw [_updateLoadStateOutput_eq, _updateLoadStateOutput_eq]
      dsimp only
      rw [h, _updateLoadStatePower_current, _updateLoadStateOutput_eq, hc]
      dsimp only
      exact setIdx_idem _ _ _
  · rw [_updateLoadStatePower_output, _updateLoadStatePower_output]
    cases ho : ev.deltaOutput with
    | none =>
      rw [_updateLoadStateOutput_eq, _updateLoadStateOutput_eq]
      dsimp only
      rw [ho, h, _updateLoadStatePower_output, _updateLoadStateOutput_eq, ho]
    | some b =>
      rw [_updateLoadStateOutput_eq, _updateLoadStateOutput_eq]
      dsimp only
      rw [ho, h, _updateLoadStatePower_output, _updateLoadStateOutput_eq, ho]
      dsimp only
      exact setIdx_idem _ _ _

/-- C5 counterexample: ingesting the same delta event twice in a row leaves
the store unchanged, but the second ingest re-runs the shed pass and issues
the same `Switch.Set` off-command again — one command after the first ingest,
two after the second — refuting "no additional switch-off command is
issued". -/
theorem repeated_ingest_reissues_commands :
    (updateStatus CONFIG deviceConfig 100 repeatDemoEvent repeatDemoWorld).commands =
      [(0, false)] ∧
    (updateStatus CONFIG deviceConfig 100 repeatDemoEvent
        (updateStatus CONFIG deviceConfig 100 repeatDemoEvent repeatDemoWorld)).commands =
      [(0, false), (0, false)] ∧
    (updateStatus CONFIG deviceConfig 100 repeatDemoEvent
        (updateStatus CONFIG deviceConfig 100 repeatDemoEvent repeatDemoWorld)).loadState =
      (updateStatus CONFIG deviceConfig 100 repeatDemoEvent repeatDemoWorld).loadState :=
  of_decide_eq_true (by with_unfolding_all rfl)

/-- C5 amended: ingesting the same delta event twice in a row is idempotent
on the channel state store (`loadState` after the second ingest equals the
state after the first), but side effects may repeat: the shed pass re-issues
the same switch-off commands, and only a notification textually identical to
the immediately previous one is suppressed. -/
theorem ingest_store_idempotent (cfg : Config) (dc : DeviceConfig) (now now2 : ℚ)
    (ev : NotifyStatus) (w : World) :
    (updateStatus cfg dc now2 ev (updateStatus cfg dc now ev w)).loadState =
      (updateStatus cfg dc now ev w).loadState := by
  rw [updateStatus_loadState, updateStatus_loadState]
  by_cases ha : (ev.deltaAenergy).isSome
  · simp [updateStatus_loadState, ha]
  · by_cases hn : ev.name = "switch"
    · have hn2 : ¬ (ev.name ≠ "switch") := by simp [hn]
      rw [if_neg ha, if_neg ha, if_neg hn2, if_neg hn2]
      exact merged_loadState_idem cfg ev w (updateStatus cfg dc now ev w)
        (by rw [updateStatus_loadState, if_neg ha, if_neg hn2])
    · simp [updateStatus_loadState, ha, hn]

theorem _checkInterlock_noop (cfg : Config) (dc : DeviceConfig) (now : ℚ) (w : World)
    (hle : (switchesOn cfg w.loadState).length ≤ 1)
    (hflag : w.interlockPosted = false) : _checkInterlock cfg dc now w = w := by
  unfold _checkInterlock
  dsimp only
  rw [if_neg (by omega), if_neg (by simp [hflag])]

theorem _checkInterlock_second_trace (cfg : Config) (dc : DeviceConfig)
    (now now2 : ℚ) (w : World) :
    (_checkInterlock cfg dc now2 (_checkInterlock cfg dc now w)).enqueuedTrace =
      (_checkInterlock cfg dc now w).enqueuedTrace := by
  by_cases hgt : 1 < (switchesOn cfg w.loadState).length
  · set mOn : String := "Multiple secondary devices are on: " ++
      String.intercalate ", " ((switchesOn cfg w.loadState).map (switchTag dc w.loadState))
      with hmOn
    have hw1 : _checkInterlock cfg dc now w =
        { _notify cfg now mOn w with interlockPosted := true } := by
      unfold _checkInterlock
      dsimp only
      rw [if_pos hgt, hmOn]
    rw [hw1]
    by_cases hurl : cfg.httpNtfyURL = ""
    · rw [_notify_nil_url cfg now mOn w hurl]
      have h2 : _checkInterlock cfg dc now2 ({ w with interlockPosted := true } : World) =
          { _notify cfg now2 mOn { w with interlockPosted := true }
            with interlockPosted := true } := by
        unfold _checkInterlock
        dsimp only
        rw [if_pos hgt, hmOn]
      rw [h2, _notify_nil_url cfg now2 mOn _ hurl]
    · have hmsg := _notify_lastMsg cfg now mOn w hurl
      have h2 : _checkInterlock cfg dc now2
          ({ _notify cfg now mOn w with interlockPosted := true } : World) =
          { _notify cfg now2 mOn { _notify cfg now mOn w with interlockPosted := true }
            with interlockPosted := true } := by
        unfold _checkInterlock
        dsimp only
        simp only [_notify_loadState]
        rw [if_pos hgt, hmOn]
      rw [h2, _notify_dup cfg now2 mOn
        ({ _notify cfg now mOn w with interlockPosted := true } : World)
        (by exact hmsg.symm)]
  · have hle : (switchesOn cfg w.loadState).length ≤ 1 := Nat.le_of_not_lt hgt
    by_cases hpost : w.interlockPosted = true
    · set mClr : String := "Multiple secondary devices cleared; on: " ++
        String.intercalate ", " ((switchesOn cfg w.loadState).map (switchTag dc w.loadState))
        with hmClr
      have hw1 : _checkInterlock cfg dc now w =
          { _notify cfg now mClr w with interlockPosted := false } := by
        unfold _checkInterlock
        dsimp only
        rw [if_neg (by omega), if_pos hpost, hmClr]
      rw [hw1]
      rw [_checkInterlock_noop cfg dc now2 _ (by simpa using hle) rfl]
    · rw [_checkInterlock_noop cfg dc now w hle (by simpa using hpost),
        _checkInterlock_noop cfg dc now2 w hle (by simpa using hpost)]

/-- C3 counterexample: two consecutive interlock evaluations with the
condition steady (two secondaries on both times, no ≤1→>1 transition);
because the current of switch 0 changed between them, the message text
differs from the previous notification and the second evaluation enqueues
another "multiple secondaries on" notification — refuting edge-triggering. -/
theorem interlock_notifies_on_steady_condition :
    (switchesOn CONFIG interlockDemoWorld.loadState).length = 2 ∧
    (switchesOn CONFIG interlockDemoMid.loadState).length = 2 ∧
    interlockDemoEval1.enqueuedTrace =
      ["Multiple secondary devices are on: S1 (4A), S2 (4A)"] ∧
    interlockDemoEval2.enqueuedTrace =
      ["Multiple secondary devices are on: S1 (4A), S2 (4A)",
       "Multiple secondary devices are on: S1 (5A), S2 (4A)"] :=
  of_decide_eq_true (by with_unfolding_all rfl)

/-- C3 amended: the interlock monitor is level-triggered with duplicate
suppression, not edge-triggered: an evaluation with ≤1 secondaries on and no
outstanding posted flag changes nothing (in particular "cleared" fires only
while the flag from a prior >1 evaluation is outstanding), and immediately
re-evaluating on an unchanged store enqueues nothing new (the attempted "on"
message is textually identical and deduplicated); a notification may however
be enqueued on an evaluation where the condition itself is unchanged, once
the message text differs. -/
theorem interlock_dedup_semantics (cfg : Config) (dc : DeviceConfig)
    (now now2 : ℚ) (w : World) :
    ((switchesOn cfg w.loadState).length ≤ 1 → w.interlockPosted = false →
      _checkInterlock cfg dc now w = w) ∧
    (_checkInterlock cfg dc now2 (_checkInterlock cfg dc now w)).enqueuedTrace =
      (_checkInterlock cfg dc now w).enqueuedTrace :=
  ⟨_checkInterlock_noop cfg dc now w, _checkInterlock_second_trace cfg dc now now2 w⟩

theorem interlock_dedup_semantics_witness :
    ((switchesOn CONFIG initialWorld.loadState).length ≤ 1 ∧
     initialWorld.interlockPosted = false) ∧
    _checkInterlock CONFIG deviceConfig 5 initialWorld = initialWorld ∧
    (_checkInterlock CONFIG deviceConfig 6
      (_checkInterlock CONFIG deviceConfig 5 initialWorld)).enqueuedTrace =
      (_checkInterlock CONFIG deviceConfig 5 initialWorld).enqueuedTrace :=
  ⟨⟨by decide, rfl⟩,
   (interlock_dedup_semantics CONFIG deviceConfig 5 6 initialWorld).1 (by decide) rfl,
   (interlock_dedup_semantics CONFIG deviceConfig 5 6 initialWorld).2⟩

theorem _notifyWrite_queue_sent_cases (cfg : Config) (now : ℚ) (bt : Bool) (W : World) :
    ((_notifyWrite cfg now bt W).notifyQueue = W.notifyQueue ∧
      (_notifyWrite cfg now bt W).sent = W.sent) ∨
    ((_notifyWrite cfg now bt W).notifyQueue = W.notifyQueue.tail ∧
      ∃ m, (_notifyWrite cfg now bt W).sent = W.sent ++ [m]) := by
  unfold _notifyWrite
  dsimp only
  split
  · split
    · left
      exact ⟨by simp, by simp⟩
    · right
      next m rest heq =>
        refine ⟨by simp [heq], m, by simp⟩
  · left
    exact ⟨rfl, rfl⟩

theorem _notify_push_cases (cfg : Config) (now : ℚ) (msg : String) (w : World)
    (hurl : cfg.httpNtfyURL ≠ "") (hdup : some msg ≠ w.lastNotificationMessage) :
    ∃ q1, (q1 = (if cfg.notifyMaxSize ≤ w.notifyQueue.length then
        w.notifyQueue.tail else w.notifyQueue) ++ [msg]) ∧
      (((_notify cfg now msg w).notifyQueue = q1 ∧ (_notify cfg now msg w).sent = w.sent) ∨
       ((_notify cfg now msg w).notifyQueue = q1.tail ∧
        ∃ m, (_notify cfg now msg w).sent = w.sent ++ [m])) := by
  by_cases hfull : cfg.notifyMaxSize ≤ w.notifyQueue.length
  · set W0 : World :=
      { _log cfg ("_notify overflow: " ++ jsonStr w.notifyQueue.head?)
          { w with
              lastNotificationMessage := some msg
              notifyQueue := w.notifyQueue.tail } with
        notifyQueue := w.notifyQueue.tail ++ [msg]
        enqueuedTrace := w.enqueuedTrace ++ [msg] } with hW0
    have hshape : _notify cfg now msg w = _notifyWrite cfg now false W0 := by
      unfold _notify
      rw [if_neg hurl, if_neg hdup]
      dsimp only
      rw [if_pos hfull, hW0]
      congr 1
      simp
    have hq : W0.notifyQueue = w.notifyQueue.tail ++ [msg] := by rw [hW0]
    have hs : W0.sent = w.sent := by rw [hW0]; simp
    refine ⟨w.notifyQueue.tail ++ [msg], by rw [if_pos hfull], ?_⟩
    rcases _notifyWrite_queue_sent_cases cfg now false W0 with ⟨h1, h2⟩ | ⟨h1, h2⟩
    · left
      rw [hshape, h1, h2, hq, hs]
      exact ⟨rfl, rfl⟩
    · right
      rw [hshape, h1, hq]
      refine ⟨rfl, ?_⟩
      obtain ⟨m, hm⟩ := h2
      exact ⟨m, by rw [hm, hs]⟩
  · set W0 : World :=
      { w with
          lastNotificationMessage := some msg
          notifyQueue := w.notifyQueue ++ [msg]
          enqueuedTrace := w.enqueuedTrace ++ [msg] } with hW0
    have hshape : _notify cfg now msg w = _notifyWrite cfg now false W0 := by
      unfold _notify
      rw [if_neg hurl, if_neg hdup]
      dsimp only
      rw [if_neg hfull, hW0]
    have hq : W0.notifyQueue = w.notifyQueue ++ [msg] := by rw [hW0]
    have hs : W0.sent = w.sent := by rw [hW0]
    refine ⟨w.notifyQueue ++ [msg], by rw [if_neg hfull], ?_⟩
    rcases _notifyWrite_queue_sent_cases cfg now false W0 with ⟨h1, h2⟩ | ⟨h1, h2⟩
    · left
      rw [hshape, h1, h2, hq, hs]
      exact ⟨rfl, rfl⟩
    · right
      rw [hshape, h1, hq]
      refine ⟨rfl, ?_⟩
      obtain ⟨m, hm⟩ := h2
      exact ⟨m, by rw [hm, hs]⟩

/-- C7 counterexample: with logging enabled and the log queue at its capacity
bound, `_log` does NOT evict the oldest entry: the queue is left unchanged
and the NEW message is the one lost (only a direct console overflow note is
emitted) — refuting drop-oldest overflow for the log queue. -/
theorem log_drops_new_at_capacity :
    smallLogCfg.log = true ∧
    fullLogWorld.logQueue.length = smallLogCfg.logMaxSize ∧
    (_log smallLogCfg "c" fullLogWorld).logQueue = ["a", "b"] ∧
    "c" ∉ (_log smallLogCfg "c" fullLogWorld).logQueue ∧
    (_log smallLogCfg "c" fullLogWorld).consoleLog = ["_log: overflow!!"] :=
  of_decide_eq_true (by with_unfolding_all rfl)

/-- C7 amended: the two queues overflow differently. The notify queue
(`_notify`) is drop-oldest: with a positive capacity bound an enqueue never
grows it past the bound, and an enqueue onto a full queue drops the oldest
entry (index 0) and appends the new message — the resulting queue may
additionally lose its new head to the immediate drain, in which case one
message was sent. The log queue (`_log`) is drop-newest: at capacity the
queue is unchanged and the new message is discarded. -/
theorem queue_overflow_semantics (cfg : Config) (now : ℚ) (msg : String) (w : World) :
    (0 < cfg.notifyMaxSize → w.notifyQueue.length ≤ cfg.notifyMaxSize →
      (_notify cfg now msg w).notifyQueue.length ≤ cfg.notifyMaxSize) ∧
    (cfg.httpNtfyURL ≠ "" → some msg ≠ w.lastNotificationMessage →
      0 < cfg.notifyMaxSize → w.notifyQueue.length = cfg.notifyMaxSize →
      ((_notify cfg now msg w).notifyQueue = w.notifyQueue.tail ++ [msg] ∨
       ((_notify cfg now msg w).notifyQueue = (w.notifyQueue.tail ++ [msg]).tail ∧
        ∃ m, (_notify cfg now msg w).sent = w.sent ++ [m]))) ∧
    (cfg.log = true → cfg.logMaxSize ≤ w.logQueue.length →
      (_log cfg msg w).logQueue = w.logQueue) := by
  refine ⟨?_, ?_, ?_⟩
  · intro hpos hle
    by_cases hurl : cfg.httpNtfyURL = ""
    · rw [_notify_nil_url cfg now msg w hurl]
      exact hle
    · by_cases hdup : some msg = w.lastNotificationMessage
      · rw [_notify_dup cfg now msg w hdup]
        exact hle
      · obtain ⟨q1, hq1, hcases⟩ := _notify_push_cases cfg now msg w hurl hdup
        have hlen : q1.length ≤ cfg.notifyMaxSize := by
          rw [hq1]
          by_cases hfull : cfg.notifyMaxSize ≤ w.notifyQueue.length
          · rw [if_pos hfull]
            simp [List.length_tail]
            omega
          · rw [if_neg hfull]
            simp
            omega
        rcases hcases with ⟨h1, _⟩ | ⟨h1, _⟩
        · rw [h1]
          exact hlen
        · rw [h1]
          have := List.length_tail q1
          omega
  · intro hurl hdup hpos hlen
    obtain ⟨q1, hq1, hcases⟩ := _notify_push_cases cfg now msg w hurl hdup
    rw [if_pos (Nat.le_of_eq hlen.symm)] at hq1
    rcases hcases with ⟨h1, _⟩ | ⟨h1, h2⟩
    · left
      rw [h1, hq1]
    · right
      rw [h1, hq1]
      exact ⟨rfl, h2⟩
  · intro hlog hge
    unfold _log
    rw [if_neg (by simp [hlog]), if_neg (by omega)]

theorem queue_overflow_semantics_witness :
    (0 < CONFIG.notifyMaxSize ∧ dupDemoWorld.notifyQueue.length ≤ CONFIG.notifyMaxSize ∧
     (_notify CONFIG 0 "msg" dupDemoWorld).notifyQueue.length ≤ CONFIG.notifyMaxSize) ∧
    (smallLogCfg.log = true ∧ smallLogCfg.logMaxSize ≤ fullLogWorld.logQueue.length ∧
     (_log smallLogCfg "msg" fullLogWorld).logQueue = fullLogWorld.logQueue) :=
  ⟨⟨by decide, by decide,
    (queue_overflow_semantics CONFIG 0 "msg" dupDemoWorld).1 (by decide) (by decide)⟩,
   ⟨rfl, by decide,
    (queue_overflow_semantics smallLogCfg 0 "msg" fullLogWorld).2.2 rfl (by decide)⟩⟩

/-- C2 (code-bug evidence): with switch 2 omitted from the priority list,
startup sync fills exactly the monitored channels, but a later status event
for switch 2 still creates store entries for it — `updateStatus` never
filters event ids against `switchPriority` — and its current is then included
in `_sumCurrents`, contradicting the configuration comment that an omitted
switch "won't be considered in any part of the calcs". -/
theorem store_entry_created_for_unmonitored_channel :
    (2 : Nat) ∉ omitCfg.switchPriority ∧
    (∀ c ∈ omitCfg.switchPriority,
      (getIdx omitWorld.loadState.output c).isSome = true ∧
      (getIdx omitWorld.loadState.current c).isSome = true) ∧
    getIdx omitWorld.loadState.output 2 = some true ∧
    getIdx omitWorld.loadState.current 2 = some 5 ∧
    _sumCurrents omitWorld.loadState = some 5 :=
  of_decide_eq_true (by with_unfolding_all rfl)
